import Mathlib

/-!
Verification development for the QA scenario-execution engine of the
`payversev2` repository (`qa_agent/agent.py`, `qa_agent/scenarios.py`,
`qa_agent/assertions.py`).

The Python code is shallowly embedded: pure data classes become Lean
structures, the stateful step/scenario runner becomes explicit state
passing over a `RunSt` record, the external MCP browser collaborator
becomes an oracle (`Env`) giving each tool call's outcome, and Python
exceptions become `Except String`.  Wall-clock time is modelled by a
`Nat` tick counter advanced at every `datetime.now()` call.
-/

namespace QA

/-- Python substring test `needle in hay` (contiguous substring). -/
def pyIn (needle hay : String) : Bool := decide (needle.data <:+: hay.data)

/-- An uppercase ASCII letter. -/
def isUpperAscii (c : Char) : Bool := 65 ≤ c.toNat && c.toNat ≤ 90

/-- ASCII lowercasing of one character; models Python `str.lower` on the
ASCII range (Python additionally lowercases non-ASCII letters, which no
claim here depends on; in both models the output contains no uppercase
ASCII letter). -/
def asciiLower (c : Char) : Char :=
  if 65 ≤ c.toNat && c.toNat ≤ 90 then Char.ofNat (c.toNat + 32) else c

/-- Python `s.lower()` (ASCII model, see `asciiLower`). -/
def pyLower (s : String) : String := ⟨s.data.map asciiLower⟩

/-- Python `o or d` for an optional string field: `None` and `""` are falsy. -/
def pyOrS (o : Option String) (d : String) : String :=
  match o with
  | some v => if v == "" then d else v
  | none => d

/-- Python `o or d` for an optional int field: `None` and `0` are falsy. -/
def pyOrI (o : Option Int) (d : Int) : Int :=
  match o with
  | some v => if v == 0 then d else v
  | none => d

/-- Python `s or d` for a plain string: `""` is falsy. -/
def pyOrStr (s d : String) : String := if s == "" then d else s

/-! ## Data model (`qa_agent/scenarios.py`) -/

/-- Embedding of `TestStep` (scenarios.py).  The `expected` field (typed `Any`, unused
by every action kind and not serialized) is omitted from the embedding. -/
structure TestStep where
  name : String
  action : String
  target : String := ""
  value : Option String := none
  timeout : Option Int := none
  critical : Bool := false
  screenshot_on_failure : Bool := true
  retry_count : Int := 0
  description : String := ""
deriving DecidableEq

/-- The dictionary produced by `TestStep.to_dict`: exactly the keys
`name, action, target, value, timeout, critical, description`. -/
structure StepDict where
  name : String
  action : String
  target : String
  value : Option String
  timeout : Option Int
  critical : Bool
  description : String
deriving DecidableEq

/-- Embedding of `TestStep.to_dict` (scenarios.py lines 72-82). -/
def TestStep.to_dict (s : TestStep) : StepDict :=
  { name := s.name, action := s.action, target := s.target, value := s.value,
    timeout := s.timeout, critical := s.critical, description := s.description }

/-- Embedding of `TestStep.from_dict` (scenarios.py lines 84-87): `cls(**data)`; the
fields absent from the dict take the dataclass defaults
(`screenshot_on_failure=True`, `retry_count=0`). -/
def TestStep.from_dict (d : StepDict) : TestStep :=
  { name := d.name, action := d.action, target := d.target, value := d.value,
    timeout := d.timeout, critical := d.critical,
    screenshot_on_failure := true, retry_count := 0, description := d.description }

/-- Embedding of `TestScenario` (scenarios.py).  The opaque `data` bag is modelled as an
association list. -/
structure TestScenario where
  name : String
  description : String := ""
  steps : List TestStep := []
  setup_steps : List TestStep := []
  teardown_steps : List TestStep := []
  tags : List String := []
  priority : Int := 5
  timeout : Int := 300000
  data : List (String × String) := []
deriving DecidableEq

/-- The dictionary produced by `TestScenario.to_dict`: keys
`name, description, steps, setup_steps, teardown_steps, tags, priority`
(`timeout` and `data` are not serialized). -/
structure ScenarioDict where
  name : String
  description : String
  steps : List StepDict
  setup_steps : List StepDict
  teardown_steps : List StepDict
  tags : List String
  priority : Int
deriving DecidableEq

/-- Embedding of `TestScenario.to_dict` (scenarios.py lines 157-167). -/
def TestScenario.to_dict (sc : TestScenario) : ScenarioDict :=
  { name := sc.name, description := sc.description,
    steps := sc.steps.map TestStep.to_dict,
    setup_steps := sc.setup_steps.map TestStep.to_dict,
    teardown_steps := sc.teardown_steps.map TestStep.to_dict,
    tags := sc.tags, priority := sc.priority }

/-- Embedding of `TestScenario.from_dict` (scenarios.py lines 169-180): reads only the
serialized keys; `timeout` and `data` take the dataclass defaults. -/
def TestScenario.from_dict (d : ScenarioDict) : TestScenario :=
  { name := d.name, description := d.description,
    steps := d.steps.map TestStep.from_dict,
    setup_steps := d.setup_steps.map TestStep.from_dict,
    teardown_steps := d.teardown_steps.map TestStep.from_dict,
    tags := d.tags, priority := d.priority,
    timeout := 300000, data := [] }

/-- What a step round-trip actually restores: the serialized fields, with
the two unserialized fields reset to the dataclass defaults. -/
def stepRT (s : TestStep) : TestStep :=
  { s with screenshot_on_failure := true, retry_count := 0 }

/-! ## Regex machinery

A tiny nondeterministic regex matcher over `List Char`: a matcher maps an
input to the list of possible remainders.  Anchored matchability
(`pattern` then end of string) is existence of an empty remainder, which
makes greedy-versus-lazy distinctions irrelevant. -/

/-- A matcher: input suffix to all possible remainders. -/
def RM : Type := List Char → List (List Char)

/-- Match the exact literal `t`. -/
def rmLit (t : List Char) : RM := fun l =>
  if t.isPrefixOf l then [l.drop t.length] else []

/-- Match one character satisfying `ok`. -/
def rmClass (ok : Char → Bool) : RM := fun l =>
  match l with
  | [] => []
  | c :: rest => if ok c then [rest] else []

/-- Empty match. -/
def rmEps : RM := fun l => [l]

/-- Sequencing. -/
def rmSeq (p q : RM) : RM := fun l => (p l).flatMap q

/-- Alternation. -/
def rmAlt (p q : RM) : RM := fun l => p l ++ q l

/-- Optional: `p?`. -/
def rmOpt (p : RM) : RM := rmAlt p rmEps

/-- Repetition `p` exactly `n` times. -/
def rmPow (p : RM) : Nat → RM
  | 0 => rmEps
  | n + 1 => rmSeq p (rmPow p n)

/-- Repetition `p` at most `n` times. -/
def rmUpTo (p : RM) : Nat → RM
  | 0 => rmEps
  | n + 1 => rmAlt rmEps (rmSeq p (rmUpTo p n))

/-- Bounded repetition `p` between `lo` and `hi` times. -/
def rmRange (p : RM) (lo hi : Nat) : RM := rmSeq (rmPow p lo) (rmUpTo p (hi - lo))

/-- Plus: `p+`, fuelled; `fuel` at least the input length is exhaustive for any
`p` that consumes at least one character. -/
def rmSome (p : RM) (fuel : Nat) : RM := rmSeq p (rmUpTo p fuel)

/-- Python `\s` (ASCII part; the claims only involve ASCII inputs). -/
def isPyWhitespace (c : Char) : Bool :=
  c == ' ' || c == '\t' || c == '\n' || c == '\r' || c == '\x0b' || c == '\x0c'

/-- Embedding of `Assertions.is_valid_url` (assertions.py lines 344-362): anchored match
of the pattern
`^https?://((label\.)+tld\.?|localhost|d{1,3}.d{1,3}.d{1,3}.d{1,3})(:\d+)?(/?|[/?]\S+)$`
with `re.IGNORECASE`, modelled by lowercasing the input (`\d` is modelled
as ASCII digits, `$` as end of input). -/
def is_valid_url (url : String) : Bool :=
  let l := (url.data.map asciiLower)
  let fuel := l.length
  let digit := rmClass Char.isDigit
  let lowerAlpha := rmClass (fun c => 97 ≤ c.toNat && c.toNat ≤ 122)
  let alnum := rmClass (fun c => c.isDigit || (97 ≤ c.toNat && c.toNat ≤ 122))
  let alnumDash := rmClass (fun c => c.isDigit || (97 ≤ c.toNat && c.toNat ≤ 122) || c == '-')
  let label := rmSeq alnum (rmOpt (rmSeq (rmRange alnumDash 0 61) alnum))
  let labelDot := rmSeq label (rmLit ['.'])
  let domain := rmSeq (rmSome labelDot fuel) (rmSeq (rmRange lowerAlpha 2 6) (rmOpt (rmLit ['.'])))
  let octet := rmRange digit 1 3
  let ip := rmSeq octet (rmSeq (rmLit ['.']) (rmSeq octet (rmSeq (rmLit ['.'])
              (rmSeq octet (rmSeq (rmLit ['.']) octet)))))
  let host := rmAlt domain (rmAlt (rmLit "localhost".data) ip)
  let port := rmOpt (rmSeq (rmLit [':']) (rmSome digit fuel))
  let tail := rmAlt (rmOpt (rmLit ['/']))
                (rmSeq (rmClass (fun c => c == '/' || c == '?'))
                  (rmSome (rmClass (fun c => !isPyWhitespace c)) fuel))
  let scheme := rmSeq (rmLit "http".data) (rmSeq (rmOpt (rmLit ['s'])) (rmLit "://".data))
  let whole := rmSeq scheme (rmSeq host (rmSeq port tail))
  (whole l).any List.isEmpty

/-! ## Selector heuristic and title extraction (`qa_agent/agent.py`) -/

/-- A single-quote character, used in the id-attribute probe. -/
def sq : String := String.singleton (Char.ofNat 39)

/-- Python `s.startswith(pre)`. -/
def pyStartsWith (s pre : String) : Bool := pre.data.isPrefixOf s.data

/-- Python slicing `s[1:]`. -/
def pyDrop1 (s : String) : String := ⟨s.data.drop 1⟩

/-- Embedding of `QATestingAgent._selector_matches_html` (agent.py lines 244-250). -/
def selectorMatchesHtml (selector html : String) : Bool :=
  if pyStartsWith selector "#" then
    pyIn ("id=\"" ++ pyDrop1 selector ++ "\"") html
      || pyIn ("id=" ++ sq ++ pyDrop1 selector ++ sq) html
  else if pyStartsWith selector "." then
    pyIn "class=\"" html && pyIn (pyDrop1 selector) html
  else
    pyIn ("<" ++ selector) (pyLower html)

/-- Shortest newline-free run of characters before a case-insensitive
`</title>`: the lazy group of `re.search(r"<title>(.*?)</title>", html,
re.IGNORECASE)` once an opening tag matched (`.` does not match `\n`). -/
def titleClose : List Char → Option (List Char)
  | [] => none
  | c :: rest =>
    if ("</title>".data.isPrefixOf ((c :: rest).map asciiLower)) then some []
    else if c == '\n' then none else (titleClose rest).map (c :: ·)

/-- Model of `re.search` for the pattern `<title>(.*?)</title>` with IGNORECASE: the group
at the earliest matching start position (models agent.py line 201). -/
def findTitle : List Char → Option (List Char)
  | [] => none
  | c :: rest =>
    if ("<title>".data.isPrefixOf ((c :: rest).map asciiLower)) then
      match titleClose ((c :: rest).drop 7) with
      | some mid => some mid
      | none => findTitle rest
    else findTitle rest

/-! ## Session model (`_get_session`, `_call_tool_in_session`) -/

/-- A raw content part as delivered by the MCP transport: a text part or
an image part (whose `mimeType` attribute may be absent). -/
inductive RawContent where
  | text (t : String)
  | image (data : String) (mimeType : Option String)
deriving DecidableEq

/-- Outcome of one transport-level `session.call_tool`: either a list of
content parts, or a raised exception carrying its message. -/
inductive CallOutcome where
  | ok (contents : List RawContent)
  | raised (msg : String)
deriving DecidableEq

/-- The external collaborator, as an oracle: whether opening/initializing
the session raises (`openFail`), and the outcome of the n-th tool call of
the session. -/
structure Env where
  openFail : Option String
  call : Nat → CallOutcome

/-- Argument value in a tool-call argument map. -/
inductive ArgVal where
  | s (v : String)
  | n (v : Int)
  | null
deriving DecidableEq

/-- Observable side effects of a run: tool invocations and screenshot
file saves (`_save_screenshot`), in order. -/
inductive Event where
  | call (name : String) (args : List (String × ArgVal))
  | save (name : String)
deriving DecidableEq

/-- Mutable runtime state threaded through the embedding: the tick clock
(`datetime.now()`), the index of the next tool call within the session,
the event trace, and the agent's tracked `current_url`. -/
structure RunSt where
  clock : Nat
  callIdx : Nat
  trace : List Event
  current_url : String
deriving DecidableEq

/-- A normalized content part of `_call_tool_in_session`'s response. -/
inductive NContent where
  | text (t : String)
  | image (data : String) (mimeType : String)
deriving DecidableEq

/-- The normalized response dict built by `_call_tool_in_session`. -/
structure NormResp where
  success : Bool
  content : List NContent
  error : Option String
deriving DecidableEq

/-- One iteration of the response-normalization loop in
`_call_tool_in_session` (agent.py lines 86-97). -/
def normStep (acc : NormResp) (c : RawContent) : NormResp :=
  match c with
  | .text t =>
    { success := if pyIn "Error:" t then false else acc.success,
      content := acc.content ++ [.text t],
      error := if pyIn "Error:" t then some t else acc.error }
  | .image d m =>
    { acc with content := acc.content ++ [.image d (m.getD "image/png")] }

/-- The full normalization loop over the returned content parts. -/
def normalize (cs : List RawContent) : NormResp :=
  cs.foldl normStep { success := true, content := [], error := none }

/-- The state after issuing one tool call: the call is consumed from the
oracle and recorded in the trace. -/
def pushCall (st : RunSt) (name : String) (args : List (String × ArgVal)) : RunSt :=
  { st with callIdx := st.callIdx + 1, trace := st.trace ++ [.call name args] }

/-- Embedding of `QATestingAgent._call_tool_in_session` (agent.py lines 81-99): issue
the tool call through the session; a transport-level exception
propagates, otherwise the content parts are normalized. -/
def callTool (env : Env) (st : RunSt) (name : String)
    (args : List (String × ArgVal)) : Except String NormResp × RunSt :=
  match env.call st.callIdx with
  | .raised m => (.error m, pushCall st name args)
  | .ok cs => (.ok (normalize cs), pushCall st name args)

/-- Embedding of `QATestingAgent._save_screenshot` (agent.py lines 101-110): writes the
decoded image under `<name>_<timestamp>.png` and returns the path; the
write is recorded as a `save` event. -/
def saveScreenshot (st : RunSt) (name : String) : String × RunSt :=
  (name ++ "_" ++ toString st.clock ++ ".png",
   { st with clock := st.clock + 1, trace := st.trace ++ [.save name] })

/-! ## Step executor (`run_step_in_session`) -/

/-- The `action_result` dict as consulted after dispatch:
`action_result.get("success", False)` and `action_result.get("error", "")`. -/
structure ActionRes where
  success : Bool
  error : Option String
deriving DecidableEq

/-- Result of the dispatch part of `run_step_in_session`: the
`action_result`, plus the screenshot path recorded by a successful
`screenshot` action. -/
structure DispatchOut where
  res : ActionRes
  shot : Option String
deriving DecidableEq

/-- First image part of a normalized content list (the `for ... break`
loops over `result["content"]`). -/
def firstImage : List NContent → Option (String × String)
  | [] => none
  | .text _ :: rest => firstImage rest
  | .image d m :: _ => some (d, m)

/-- Model of `content[0].get("text", "")`: the text of the first content part, or
`""` when the first part is an image. -/
def firstText0 : List NContent → String
  | .text t :: _ => t
  | _ => ""

/-- The action-dispatch chain of `run_step_in_session` (agent.py lines
126-213), one branch per recognized `step.action`; a transport exception
anywhere inside escapes as `.error`. -/
def execAction (env : Env) (st : RunSt) (step : TestStep) :
    Except String DispatchOut × RunSt :=
  if step.action == "navigate" then
    match callTool env st "browser_navigate" [("url", .s step.target)] with
    | (.error m, st1) => (.error m, st1)
    | (.ok resp, st1) =>
      let st2 := if resp.success then { st1 with current_url := step.target } else st1
      (.ok ⟨⟨resp.success, resp.error⟩, none⟩, st2)
  else if step.action == "click" then
    match callTool env st "browser_click" [("selector", .s step.target)] with
    | (.error m, st1) => (.error m, st1)
    | (.ok resp, st1) => (.ok ⟨⟨resp.success, resp.error⟩, none⟩, st1)
  else if step.action == "type" then
    match callTool env st "browser_type"
        [("selector", .s step.target), ("text", .s (step.value.getD ""))] with
    | (.error m, st1) => (.error m, st1)
    | (.ok resp, st1) => (.ok ⟨⟨resp.success, resp.error⟩, none⟩, st1)
  else if step.action == "wait" then
    match callTool env st "browser_wait"
        [("selector", if step.target == "" then .null else .s step.target),
         ("timeout", .n (pyOrI step.timeout 1000))] with
    | (.error m, st1) => (.error m, st1)
    | (.ok resp, st1) => (.ok ⟨⟨resp.success, resp.error⟩, none⟩, st1)
  else if step.action == "scroll" then
    match callTool env st "browser_scroll"
        [("direction", .s (pyOrS step.value "down")),
         ("amount", .n (pyOrI step.timeout 500))] with
    | (.error m, st1) => (.error m, st1)
    | (.ok resp, st1) => (.ok ⟨⟨resp.success, resp.error⟩, none⟩, st1)
  else if step.action == "screenshot" then
    match callTool env st "browser_screenshot" [] with
    | (.error m, st1) => (.error m, st1)
    | (.ok resp, st1) =>
      if resp.success then
        match firstImage resp.content with
        | some _ =>
          let sv := saveScreenshot st1 (pyOrStr step.target step.name)
          (.ok ⟨⟨resp.success, resp.error⟩, some sv.1⟩, sv.2)
        | none => (.ok ⟨⟨resp.success, resp.error⟩, none⟩, st1)
      else (.ok ⟨⟨resp.success, resp.error⟩, none⟩, st1)
  else if step.action == "assert_text" then
    match callTool env st "browser_get_content" [] with
    | (.error m, st1) => (.error m, st1)
    | (.ok resp, st1) =>
      if resp.success && !resp.content.isEmpty then
        let page := firstText0 resp.content
        (.ok ⟨⟨pyIn (pyLower step.target) (pyLower page), none⟩, none⟩, st1)
      else (.ok ⟨⟨false, some "Could not get page content"⟩, none⟩, st1)
  else if step.action == "assert_element" then
    match callTool env st "browser_get_html" [] with
    | (.error m, st1) => (.error m, st1)
    | (.ok resp, st1) =>
      if resp.success && !resp.content.isEmpty then
        let html := firstText0 resp.content
        (.ok ⟨⟨selectorMatchesHtml step.target html, none⟩, none⟩, st1)
      else (.ok ⟨⟨false, some "Could not get page HTML"⟩, none⟩, st1)
  else if step.action == "assert_url" then
    (.ok ⟨⟨pyIn (pyLower step.target) (pyLower st.current_url), none⟩, none⟩, st)
  else if step.action == "assert_title" then
    match callTool env st "browser_get_html" [] with
    | (.error m, st1) => (.error m, st1)
    | (.ok resp, st1) =>
      if resp.success && !resp.content.isEmpty then
        let html := firstText0 resp.content
        match findTitle html.data with
        | some title =>
          (.ok ⟨⟨pyIn (pyLower step.target) (pyLower ⟨title⟩), none⟩, none⟩, st1)
        | none => (.ok ⟨⟨false, some "No title found"⟩, none⟩, st1)
      else (.ok ⟨⟨false, some "Could not get page HTML"⟩, none⟩, st1)
  else
    (.ok ⟨⟨false, some ("Unknown action: " ++ step.action)⟩, none⟩, st)

/-- The body of `run_step_in_session`'s `try` block after the `result`
skeleton is created: dispatch, outcome classification, and the
best-effort failure screenshot (agent.py lines 123-229); yields the final
`(status, message, screenshot)` or the caught exception's message. -/
def stepBody (env : Env) (st : RunSt) (step : TestStep) :
    Except String (String × String × Option String) × RunSt :=
  match execAction env st step with
  | (.error m, st1) => (.error m, st1)
  | (.ok d, st1) =>
    let status := if d.res.success then "passed" else "failed"
    let message := d.res.error.getD ""
    if status == "failed" && step.screenshot_on_failure then
      match callTool env st1 "browser_screenshot" [] with
      | (.error m, st2) => (.error m, st2)
      | (.ok resp, st2) =>
        if resp.success then
          match firstImage resp.content with
          | some _ =>
            let sv := saveScreenshot st2 ("failure_" ++ step.name)
            (.ok (status, message, some sv.1), sv.2)
          | none => (.ok (status, message, d.shot), st2)
        else (.ok (status, message, d.shot), st2)
    else (.ok (status, message, d.shot), st1)

/-- Embedding of `StepResult` (scenarios.py lines 90-101); times are clock ticks. -/
structure StepResult where
  step : TestStep
  status : String
  message : String
  screenshot : String
  start_time : Nat
  end_time : Option Nat
  duration : Nat
deriving DecidableEq

/-- Embedding of `QATestingAgent.run_step_in_session` (agent.py lines 114-242): records
the start tick, runs the try block, catches any exception as an
`error`-status result, and always records end tick and duration. -/
def runStep (env : Env) (st : RunSt) (step : TestStep) : StepResult × RunSt :=
  let start := st.clock
  let stA : RunSt := { st with clock := st.clock + 1 }
  match stepBody env stA step with
  | (.ok (status, message, shot), st2) =>
    ({ step := step, status := status, message := message,
       screenshot := shot.getD "", start_time := start,
       end_time := some st2.clock, duration := st2.clock - start },
     { st2 with clock := st2.clock + 1 })
  | (.error m, st2) =>
    ({ step := step, status := "error", message := m, screenshot := "",
       start_time := start, end_time := some st2.clock,
       duration := st2.clock - start },
     { st2 with clock := st2.clock + 1 })

/-! ## Scenario and suite runner (`run_scenario`, `run_suite`) -/

/-- Output of one phase loop inside `run_scenario`: the step results in
order, the state afterwards, and whether the loop stopped early (the
raised critical-setup exception, or the main-loop `break`). -/
structure PhaseOut where
  results : List StepResult
  st : RunSt
  stopped : Bool
deriving DecidableEq

/-- The setup loop (agent.py lines 265-271): run steps in order; a
non-passed critical step raises, ending the whole `try` block. -/
def runSetup (env : Env) : RunSt → List TestStep → PhaseOut
  | st, [] => ⟨[], st, false⟩
  | st, step :: rest =>
    let p := runStep env st step
    if (p.1.status != "passed") && step.critical then ⟨[p.1], p.2, true⟩
    else
      let q := runSetup env p.2 rest
      ⟨p.1 :: q.results, q.st, q.stopped⟩

/-- The main-steps loop (agent.py lines 274-281): run steps in order; a
non-passed critical step `break`s out of the loop. -/
def runMain (env : Env) : RunSt → List TestStep → PhaseOut
  | st, [] => ⟨[], st, false⟩
  | st, step :: rest =>
    let p := runStep env st step
    if (p.1.status != "passed") && step.critical then ⟨[p.1], p.2, true⟩
    else
      let q := runMain env p.2 rest
      ⟨p.1 :: q.results, q.st, q.stopped⟩

/-- The teardown loop (agent.py lines 284-288): every step runs. -/
def runTeardown (env : Env) : RunSt → List TestStep → List StepResult × RunSt
  | st, [] => ([], st)
  | st, step :: rest =>
    let p := runStep env st step
    let q := runTeardown env p.2 rest
    (p.1 :: q.1, q.2)

/-- Scenario-status derivation (agent.py lines 295-303): the
`failed_steps`/`error_steps` filters and the `error`/`failed`/`passed`
branch. -/
def aggStatusCode (rs : List StepResult) : String :=
  let failed_steps := rs.filter (fun r => r.status == "failed")
  let error_steps := rs.filter (fun r => r.status == "error")
  if !error_steps.isEmpty then "error"
  else if !failed_steps.isEmpty then "failed"
  else "passed"

/-- Embedding of `TestResult` (scenarios.py lines 183-207); times are clock ticks. -/
structure TestResult where
  scenario : TestScenario
  status : String
  step_results : List StepResult
  start_time : Nat
  end_time : Nat
  duration : Nat
deriving DecidableEq

/-- The state in which a scenario's phases start: the start tick has been
taken and the fresh session counts its tool calls from zero. -/
def scenarioInit (st : RunSt) : RunSt :=
  { st with clock := st.clock + 1, callIdx := 0 }

/-- Embedding of `QATestingAgent.run_scenario` (agent.py lines 252-323).  The
`try/except` that swallows the critical-setup exception sits inside the
`async with self._get_session()` block, so a session open/initialize
failure (`env.openFail`) propagates out as `.error`.  Otherwise setup,
main and teardown run under the phase rules and the scenario status is
aggregated from all recorded step results. -/
def runScenario (env : Env) (st : RunSt) (sc : TestScenario) :
    Except String (TestResult × RunSt) :=
  let start := st.clock
  let st1 := scenarioInit st
  match env.openFail with
  | some m => .error m
  | none =>
    let su := runSetup env st1 sc.setup_steps
    let mn := runMain env su.st sc.steps
    let td := runTeardown env mn.st sc.teardown_steps
    let rs := if su.stopped then su.results else su.results ++ mn.results ++ td.1
    let stEnd := if su.stopped then su.st else td.2
    .ok ({ scenario := sc, status := aggStatusCode rs, step_results := rs,
           start_time := start, end_time := stEnd.clock,
           duration := stEnd.clock - start },
         { stEnd with clock := stEnd.clock + 1 })

/-- Embedding of `QATestingAgent.run_suite` (agent.py lines 325-340): scenarios run
strictly in order, each against its own freshly opened session
(`envs i` is the collaborator behaviour for the i-th scenario); an
exception escaping `run_scenario` crashes the suite run. -/
def runSuite (envs : Nat → Env) (st : RunSt) (scenarios : List TestScenario) :
    Except String (List TestResult × RunSt) :=
  go 0 st scenarios
where
  go (i : Nat) (st : RunSt) : List TestScenario → Except String (List TestResult × RunSt)
    | [] => .ok ([], st)
    | sc :: rest =>
      match runScenario (envs i) st sc with
      | .error m => .error m
      | .ok (res, st1) =>
        match go (i + 1) st1 rest with
        | .error m => .error m
        | .ok (ress, st2) => .ok (res :: ress, st2)

/-! ## Concrete fixtures for witnesses and counterexamples -/

/-- The initial runtime state: clock zero, no calls, empty trace,
`current_url = ""` (agent.py line 54). -/
def st0 : RunSt := { clock := 0, callIdx := 0, trace := [], current_url := "" }

/-- A collaborator that opens fine and answers every call with an empty
content list. -/
def envNone : Env := { openFail := none, call := fun _ => .ok [] }

/-- A collaborator whose session open/initialize raises `boom`. -/
def envBoom : Env := { openFail := some "boom", call := fun _ => .ok [] }

/-- A collaborator that opens fine but whose every tool call raises. -/
def envRaise : Env := { openFail := none, call := fun _ => .raised "disk full" }

/-- A collaborator that opens fine and answers every call with one image
part (so failure screenshots succeed). -/
def envShot : Env :=
  { openFail := none, call := fun _ => .ok [RawContent.image "imgdata" none] }

/-- A collaborator whose first response is a text part carrying the
`Error:` marker. -/
def envErrText : Env :=
  { openFail := none, call := fun _ => .ok [RawContent.text "Error: no such element"] }

/-- A critical step with an unrecognized action (deterministically
`failed`, no tool calls, no failure screenshot). -/
def badStep : TestStep :=
  { name := "bad", action := "bogus", critical := true, screenshot_on_failure := false }

/-- A non-critical step with an unrecognized action. -/
def stepB : TestStep :=
  { name := "b", action := "bogus", screenshot_on_failure := false }

/-- A teardown step with an unrecognized action. -/
def tdStep : TestStep :=
  { name := "td", action := "bogus", screenshot_on_failure := false }

/-- A navigate step. -/
def navStep : TestStep := { name := "nav", action := "navigate", target := "x" }

/-- Scenario whose setup holds one critical failing step, with one main
step and one teardown step that should therefore never run. -/
def scSetupFail : TestScenario :=
  { name := "s", setup_steps := [badStep], steps := [stepB], teardown_steps := [tdStep] }

/-- Scenario whose first main step fails critically, followed by another
main step and one teardown step. -/
def scMainFail : TestScenario :=
  { name := "s", steps := [badStep, stepB], teardown_steps := [tdStep] }

/-- Scenario with a single non-critical failing main step. -/
def scOneFail : TestScenario := { name := "s", steps := [stepB] }

/-- A failing step that requests a failure screenshot. -/
def shotStep : TestStep :=
  { name := "s", action := "bogus", screenshot_on_failure := true }

/-- A step whose serialization drops `screenshot_on_failure = false`. -/
def c7step : TestStep :=
  { name := "s", action := "navigate", screenshot_on_failure := false }

/-- A scenario whose serialization drops `timeout = 0`. -/
def c7sc : TestScenario := { name := "n", timeout := 0 }

/-- Project a scenario-run outcome to its `TestResult`, with a sentinel
for the crash case. -/
def resOf (e : Except String (TestResult × RunSt)) : TestResult :=
  match e with
  | .ok p => p.1
  | .error _ =>
    { scenario := { name := "" }, status := "crashed", step_results := [],
      start_time := 0, end_time := 0, duration := 0 }

/-- Project a scenario-run outcome to its final state, with a sentinel
for the crash case. -/
def stOf (e : Except String (TestResult × RunSt)) : RunSt :=
  match e with
  | .ok p => p.2
  | .error _ => st0

/-- The spec's scenario-status aggregation rule (spec section 3, stated
over the spec's words, to be compared with `aggStatusCode`): `error` if
any step result is `error`, else `failed` if any is `failed`, else
`passed`. -/
def specStatus (rs : List StepResult) : String :=
  if rs.any (fun r => r.status == "error") then "error"
  else if rs.any (fun r => r.status == "failed") then "failed"
  else "passed"

/-- Normalization of one raw content part, as a function (the shape
`_call_tool_in_session` gives each collected part). -/
def normPart : RawContent → NContent
  | .text t => .text t
  | .image d m => .image d (m.getD "image/png")

/-- Whether a raw part is a text part carrying the `Error:` marker. -/
def errPart : RawContent → Bool
  | .text t => pyIn "Error:" t
  | .image _ _ => false

/-! ## Helper lemmas -/

/-- Auxiliary: `Char.ofNat` below the surrogate range is faithful. -/
theorem toNat_ofNat_small {n : Nat} (h : n < 55296) : (Char.ofNat n).toNat = n := by
  have hv : n < 55296 ∨ 57343 < n ∧ n < 1114112 := Or.inl h
  simp [Char.ofNat, hv, Char.ofNatAux, Char.toNat, UInt32.toNat, Nat.toUInt32]

/-- Lowercasing never yields an uppercase ASCII letter. -/
theorem asciiLower_not_upper (c : Char) : isUpperAscii (asciiLower c) = false := by
  unfold asciiLower
  split
  · rename_i h
    simp only [Bool.and_eq_true, decide_eq_true_eq] at h
    have hv : (Char.ofNat (c.toNat + 32)).toNat = c.toNat + 32 :=
      toNat_ofNat_small (by omega)
    simp [isUpperAscii, hv]
    omega
  · rename_i h
    simp only [Bool.and_eq_true, decide_eq_true_eq, not_and] at h
    simp [isUpperAscii]
    omega

/-- Round-tripping a step through its dictionary restores the serialized
fields and resets the unserialized ones. -/
theorem from_to_dict_eq_stepRT (s : TestStep) :
    TestStep.from_dict (TestStep.to_dict s) = stepRT s := by
  cases s; rfl

/-! ## Claims -/

/-- C7 counterexample: the round-trip is not the identity.  A step with
`screenshot_on_failure = False` comes back with the default `True`
(`to_dict` omits the field), and a scenario with a non-default `timeout`
comes back with the default `300000`. -/
theorem roundtrip_not_identity :
    TestStep.from_dict (TestStep.to_dict c7step) ≠ c7step ∧
    TestScenario.from_dict (TestScenario.to_dict c7sc) ≠ c7sc := by
  constructor <;> decide

/-- C7 (amended): `from_dict ∘ to_dict` restores exactly the serialized
fields: for steps everything except `screenshot_on_failure` and
`retry_count` (which revert to their defaults `True` and `0`), and for
scenarios everything except `timeout` and `data` (which revert to their
defaults), with the contained step lists round-tripped the same way. -/
theorem roundtrip_restores_serialized_fields :
    (∀ s : TestStep, TestStep.from_dict (TestStep.to_dict s) = stepRT s) ∧
    (∀ sc : TestScenario, TestScenario.from_dict (TestScenario.to_dict sc) =
      { sc with steps := sc.steps.map stepRT,
                setup_steps := sc.setup_steps.map stepRT,
                teardown_steps := sc.teardown_steps.map stepRT,
                timeout := 300000, data := [] }) := by
  refine ⟨from_to_dict_eq_stepRT, ?_⟩
  intro sc
  cases sc
  simp [TestScenario.from_dict, TestScenario.to_dict, List.map_map,
        Function.comp_def, from_to_dict_eq_stepRT]

/-- C9: `is_valid_url` accepts `http://localhost:3000/path` and
`https://example.com`, and rejects `not a url` and `ftp://example.com`. -/
theorem is_valid_url_examples :
    is_valid_url "http://localhost:3000/path" = true ∧
    is_valid_url "https://example.com" = true ∧
    is_valid_url "not a url" = false ∧
    is_valid_url "ftp://example.com" = false := by
  refine ⟨?_, ?_, ?_, ?_⟩ <;> decide

/-- C10: a selector that starts with neither `#` nor `.` and contains an
uppercase ASCII letter never matches: the heuristic searches for `<` ++
selector inside the lowercased document, which contains no uppercase
ASCII letter. -/
theorem uppercase_selector_never_matches (selector html : String)
    (h1 : pyStartsWith selector "#" = false)
    (h2 : pyStartsWith selector "." = false)
    (h3 : ∃ c ∈ selector.data, isUpperAscii c = true) :
    selectorMatchesHtml selector html = false := by
  unfold selectorMatchesHtml
  rw [h1, h2]
  simp only [Bool.false_eq_true, if_false]
  obtain ⟨c, hmem, hup⟩ := h3
  cases hpy : pyIn ("<" ++ selector) (pyLower html) with
  | false => rfl
  | true =>
    exfalso
    unfold pyIn at hpy
    have hin : ("<" ++ selector).data <:+: (pyLower html).data :=
      of_decide_eq_true hpy
    have hcmem : c ∈ (pyLower html).data := by
      refine hin.subset ?_
      rw [String.data_append]
      exact List.mem_append_right _ hmem
    have hcmem2 : c ∈ html.data.map asciiLower := hcmem
    obtain ⟨c0, _, hc0⟩ := List.mem_map.mp hcmem2
    rw [← hc0, asciiLower_not_upper c0] at hup
    exact Bool.false_ne_true hup

/-- C10 witness: the uppercase tag selector `DIV` fails even against a
document that literally contains `<DIV>`. -/
theorem uppercase_selector_never_matches_witness :
    selectorMatchesHtml "DIV" "<DIV>" = false :=
  uppercase_selector_never_matches "DIV" "<DIV>" (by decide) (by decide)
    ⟨'D', by decide, by decide⟩

/-- The normalization loop collects every content part, in order. -/
theorem normFold_content (cs : List RawContent) (acc : NormResp) :
    (cs.foldl normStep acc).content = acc.content ++ cs.map normPart := by
  induction cs generalizing acc with
  | nil => simp
  | cons c rest ih =>
    cases c <;> simp [normStep, normPart, ih, List.append_assoc]

/-- The normalization loop fails exactly when some text part carries the
`Error:` marker (relative to the incoming flag). -/
theorem normFold_success (cs : List RawContent) (acc : NormResp) :
    (cs.foldl normStep acc).success = (acc.success && !cs.any errPart) := by
  induction cs generalizing acc with
  | nil => simp
  | cons c rest ih =>
    cases c with
    | text t =>
      by_cases h : pyIn "Error:" t = true
      · simp [normStep, errPart, ih, h]
      · simp only [Bool.not_eq_true] at h
        simp [normStep, errPart, ih, h]
    | image d m => simp [normStep, errPart, ih]

/-- Invariant of the normalization loop: when it reports failure, the
`error` field carries an offending text, provided the incoming
accumulator already satisfied this. -/
theorem normFold_error (cs : List RawContent) (acc : NormResp) (Q : String → Prop)
    (hacc : acc.success = false →
      ∃ t, acc.error = some t ∧ pyIn "Error:" t = true ∧ Q t)
    (hcs : ∀ t, RawContent.text t ∈ cs → pyIn "Error:" t = true → Q t) :
    (cs.foldl normStep acc).success = false →
    ∃ t, (cs.foldl normStep acc).error = some t ∧ pyIn "Error:" t = true ∧ Q t := by
  induction cs generalizing acc with
  | nil => exact hacc
  | cons c rest ih =>
    intro hf
    refine ih (normStep acc c) ?_ (fun t ht he => hcs t (List.mem_cons_of_mem _ ht) he) hf
    intro hf1
    cases c with
    | text t =>
      by_cases h : pyIn "Error:" t = true
      · exact ⟨t, by simp [normStep, h], h, hcs t (List.mem_cons_self _ _) h⟩
      · simp only [Bool.not_eq_true] at h
        simp only [normStep, h, Bool.false_eq_true, if_false] at hf1 ⊢
        exact hacc hf1
    | image d m =>
      simp only [normStep] at hf1 ⊢
      exact hacc hf1

/-- C8: response classification in `_call_tool_in_session`.  A
transport-level failure (the call raising) propagates as the exception
itself; otherwise the normalized response is failed exactly when some
returned text part contains the literal `Error:` (with such a text
recorded as the error), and the content list collects every text and
image part. -/
theorem call_tool_classification (env : Env) (st : RunSt) (name : String)
    (args : List (String × ArgVal)) :
    (∀ m, env.call st.callIdx = .raised m →
      callTool env st name args = (.error m, pushCall st name args)) ∧
    (∀ cs, env.call st.callIdx = .ok cs →
      callTool env st name args = (.ok (normalize cs), pushCall st name args) ∧
      ((normalize cs).success = false ↔
        ∃ t, RawContent.text t ∈ cs ∧ pyIn "Error:" t = true) ∧
      ((normalize cs).success = false →
        ∃ t, (normalize cs).error = some t ∧ pyIn "Error:" t = true ∧
          RawContent.text t ∈ cs) ∧
      (normalize cs).content = cs.map normPart) := by
  constructor
  · intro m hm
    simp [callTool, hm]
  · intro cs hcs
    refine ⟨by simp [callTool, hcs], ?_, ?_, ?_⟩
    · rw [show (normalize cs).success = !cs.any errPart by
        simpa using normFold_success cs _]
      constructor
      · intro h
        simp only [Bool.not_eq_false'] at h
        obtain ⟨c, hc, hcp⟩ := List.any_eq_true.mp h
        cases c with
        | text t => exact ⟨t, hc, hcp⟩
        | image d m => simp [errPart] at hcp
      · rintro ⟨t, ht, hp⟩
        have : cs.any errPart = true := List.any_eq_true.mpr ⟨_, ht, hp⟩
        simp [this]
    · intro hf
      obtain ⟨t, he, hp, hm⟩ :=
        normFold_error cs _ (fun t => RawContent.text t ∈ cs)
          (by intro h; simp at h) (fun t ht _ => ht) hf
      exact ⟨t, he, hp, hm⟩
    · simpa using normFold_content cs _

/-- C8 witness: a concrete call whose single text part carries the
`Error:` marker is classified as failed with that text as the error. -/
theorem call_tool_classification_witness :
    callTool envErrText st0 "browser_click" [("selector", .s "x")]
      = (.ok (normalize [RawContent.text "Error: no such element"]),
         pushCall st0 "browser_click" [("selector", .s "x")]) ∧
    ((normalize [RawContent.text "Error: no such element"]).success = false ↔
      ∃ t, RawContent.text t ∈ [RawContent.text "Error: no such element"] ∧
        pyIn "Error:" t = true) ∧
    ((normalize [RawContent.text "Error: no such element"]).success = false →
      ∃ t, (normalize [RawContent.text "Error: no such element"]).error = some t ∧
        pyIn "Error:" t = true ∧
        RawContent.text t ∈ [RawContent.text "Error: no such element"]) ∧
    (normalize [RawContent.text "Error: no such element"]).content
      = [RawContent.text "Error: no such element"].map normPart :=
  (call_tool_classification envErrText st0 "browser_click"
    [("selector", .s "x")]).2 [RawContent.text "Error: no such element"] rfl

/-- C6: an exception raised during dispatch of the step's action is
caught inside `run_step_in_session`: the step result has status `error`
with the exception's message, the end tick and duration are still
recorded, and no exception propagates (the function is total). -/
theorem step_exception_caught (env : Env) (st : RunSt) (step : TestStep)
    (m : String) (st1 : RunSt)
    (h : execAction env { st with clock := st.clock + 1 } step = (.error m, st1)) :
    runStep env st step =
      ({ step := step, status := "error", message := m, screenshot := "",
         start_time := st.clock, end_time := some st1.clock,
         duration := st1.clock - st.clock },
       { st1 with clock := st1.clock + 1 }) := by
  simp only [runStep, stepBody, h]

/-- C6 witness: a navigate step whose tool call raises `disk full` yields
an `error` result carrying that message, with end tick and duration set. -/
theorem step_exception_caught_witness :
    runStep envRaise st0 navStep =
      ({ step := navStep, status := "error", message := "disk full",
         screenshot := "", start_time := 0, end_time := some 1, duration := 1 },
       { clock := 2, callIdx := 1,
         trace := [Event.call "browser_navigate" [("url", ArgVal.s "x")]],
         current_url := "" }) :=
  step_exception_caught envRaise st0 navStep "disk full"
    { clock := 1, callIdx := 1,
      trace := [Event.call "browser_navigate" [("url", ArgVal.s "x")]],
      current_url := "" } rfl

/-- C5 counterexample: a step classified `failed` with
`screenshot_on_failure` set, whose failure-screenshot invocation raises,
does NOT keep status `failed`: the exception is caught by the step-level
handler, which reclassifies the step as `error` (the capture block sits
inside the `try`).  The second conjunct shows the dispatch itself had
returned a plain failure before the capture. -/
theorem failure_screenshot_exception_escalates :
    (runStep envRaise st0 shotStep).1.status = "error" ∧
    execAction envRaise { st0 with clock := 1 } shotStep
      = (.ok ⟨⟨false, some "Unknown action: bogus"⟩, none⟩,
         { st0 with clock := 1 }) := by
  exact ⟨rfl, rfl⟩

/-- C5 (amended): when a step's outcome is `failed` and
`screenshot_on_failure` is set, exactly one additional screenshot
invocation is attempted, and any file saved from it is tagged
`failure_<step name>`; a capture that merely returns (even
unsuccessfully) leaves the step's status `failed`, but a capture that
raises is caught by the step-level handler and reclassifies the step as
`error` with the exception's message. -/
theorem failure_screenshot_best_effort (env : Env) (st : RunSt) (step : TestStep)
    (d : DispatchOut) (st1 : RunSt)
    (hd : execAction env { st with clock := st.clock + 1 } step = (.ok d, st1))
    (hfail : d.res.success = false)
    (hflag : step.screenshot_on_failure = true) :
    (∃ tail, (runStep env st step).2.trace
        = st1.trace ++ Event.call "browser_screenshot" [] :: tail
      ∧ ∀ e ∈ tail, e = Event.save ("failure_" ++ step.name)) ∧
    (∀ cs, env.call st1.callIdx = .ok cs →
      (runStep env st step).1.status = "failed") ∧
    (∀ m, env.call st1.callIdx = .raised m →
      (runStep env st step).1.status = "error" ∧
      (runStep env st step).1.message = m) := by
  simp only [runStep, stepBody, hd, hfail, hflag, Bool.false_eq_true, if_false,
    Bool.and_true, beq_self_eq_true, if_true]
  cases hcall : env.call st1.callIdx with
  | raised m0 =>
    simp only [callTool, hcall]
    refine ⟨⟨[], by simp [pushCall], by simp⟩, ?_, ?_⟩
    · intro cs hcs
      cases hcs
    · intro m hm
      cases hm
      exact ⟨by trivial, by trivial⟩
  | ok cs0 =>
    simp only [callTool, hcall]
    by_cases hs : (normalize cs0).success = true
    · rw [hs]
      simp only [if_true]
      cases hfi : firstImage (normalize cs0).content with
      | none =>
        refine ⟨⟨[], by simp [pushCall], by simp⟩, ?_, ?_⟩
        · intro cs hcs
          trivial
        · intro m hm
          cases hm
      | some img =>
        refine ⟨⟨[Event.save ("failure_" ++ step.name)], ?_, ?_⟩, ?_, ?_⟩
        · simp [saveScreenshot, pushCall, List.append_assoc]
        · simp
        · intro cs hcs
          trivial
        · intro m hm
          cases hm
    · simp only [Bool.not_eq_true] at hs
      rw [hs]
      simp only [Bool.false_eq_true, if_false]
      refine ⟨⟨[], by simp [pushCall], by simp⟩, ?_, ?_⟩
      · intro cs hcs
        trivial
      · intro m hm
        cases hm

/-- C5 amended-claim witness: concrete failing step with the flag set,
against a collaborator whose capture returns one image part. -/
theorem failure_screenshot_best_effort_witness :
    (∃ tail, (runStep envShot st0 shotStep).2.trace
        = RunSt.trace { st0 with clock := 1 }
            ++ Event.call "browser_screenshot" [] :: tail
      ∧ ∀ e ∈ tail, e = Event.save ("failure_" ++ shotStep.name)) ∧
    (∀ cs, envShot.call (RunSt.callIdx { st0 with clock := 1 }) = .ok cs →
      (runStep envShot st0 shotStep).1.status = "failed") ∧
    (∀ m, envShot.call (RunSt.callIdx { st0 with clock := 1 }) = .raised m →
      (runStep envShot st0 shotStep).1.status = "error" ∧
      (runStep envShot st0 shotStep).1.message = m) :=
  failure_screenshot_best_effort envShot st0 shotStep
    ⟨⟨false, some "Unknown action: bogus"⟩, none⟩ { st0 with clock := 1 }
    rfl rfl rfl

/-- Every teardown step produces exactly one result, in order. -/
theorem runTeardown_length (env : Env) (st : RunSt) (ts : List TestStep) :
    (runTeardown env st ts).1.length = ts.length := by
  induction ts generalizing st with
  | nil => rfl
  | cons s rest ih => simp [runTeardown, ih]

/-- The main loop distributes over an append when its first part does not
stop early. -/
theorem runMain_append (env : Env) (st : RunSt) (pre rest : List TestStep)
    (h : (runMain env st pre).stopped = false) :
    runMain env st (pre ++ rest) =
      { results := (runMain env st pre).results
          ++ (runMain env (runMain env st pre).st rest).results,
        st := (runMain env (runMain env st pre).st rest).st,
        stopped := (runMain env (runMain env st pre).st rest).stopped } := by
  induction pre generalizing st with
  | nil => simp [runMain]
  | cons s pre ih =>
    by_cases hc : (((runStep env st s).1.status != "passed")
        && s.critical) = true
    · exfalso
      simp [runMain, hc] at h
    · simp only [Bool.not_eq_true] at hc
      have h2 : (runMain env (runStep env st s).2 pre).stopped = false := by
        simp [runMain, hc] at h
        exact h
      simp [List.cons_append, runMain, hc, ih _ h2]

/-- The non-emptiness test on a filtered list is the `any` of the
predicate. -/
theorem filter_not_isEmpty_eq_any (p : StepResult → Bool) (rs : List StepResult) :
    (!(rs.filter p).isEmpty) = rs.any p := by
  induction rs with
  | nil => rfl
  | cons r rest ih =>
    by_cases h : p r = true <;> simp [List.filter_cons, h, ih]

/-- The code's status derivation agrees with the spec's aggregation rule. -/
theorem aggStatusCode_eq_specStatus (rs : List StepResult) :
    aggStatusCode rs = specStatus rs := by
  simp only [aggStatusCode, specStatus]
  rw [filter_not_isEmpty_eq_any, filter_not_isEmpty_eq_any]

/-- C1 (code bug): when the session cannot be opened or initialized, the
exception propagates out of `run_scenario` (its `try`/`except` sits
inside the `async with` block) and `run_suite` crashes: no result is
produced for the failing scenario and the remaining scenarios never run,
contradicting the claim that the failure is caught and recorded as a
scenario-level error result. -/
theorem session_open_failure_crashes_suite :
    runSuite (fun _ => envBoom) st0 [scSetupFail, scOneFail] = .error "boom" ∧
    runScenario envBoom st0 scSetupFail = .error "boom" :=
  ⟨rfl, rfl⟩

/-- C2 counterexample: a scenario whose setup holds a critical step that
merely `failed` (not `error`) aborts with exactly that one step result,
and its overall status is `failed`, not an error-level status — refuting
the claim that such a scenario is recorded as an error-level failure. -/
theorem setup_critical_failed_not_error :
    (resOf (runScenario envNone st0 scSetupFail)).status = "failed" ∧
    (resOf (runScenario envNone st0 scSetupFail)).step_results.length = 1 ∧
    scSetupFail.setup_steps = [badStep] ∧
    badStep.critical = true ∧
    scSetupFail.steps.length = 1 ∧
    scSetupFail.teardown_steps.length = 1 :=
  ⟨rfl, rfl, rfl, rfl, rfl, rfl⟩

/-- C2 (amended): when the setup loop stops on a critical non-passed
step, the scenario aborts immediately — its recorded step results are
exactly the setup results produced so far (zero main-step and zero
teardown-step results) — and its status is derived from those results by
the normal aggregation rule (so `error` only if a recorded step errored,
and `failed` when the critical setup step merely failed). -/
theorem setup_critical_abort (env : Env) (st : RunSt) (sc : TestScenario)
    (hop : env.openFail = none)
    (hab : (runSetup env (scenarioInit st) sc.setup_steps).stopped = true) :
    runScenario env st sc =
      .ok ({ scenario := sc,
             status := aggStatusCode
               (runSetup env (scenarioInit st) sc.setup_steps).results,
             step_results := (runSetup env (scenarioInit st) sc.setup_steps).results,
             start_time := st.clock,
             end_time := (runSetup env (scenarioInit st) sc.setup_steps).st.clock,
             duration := (runSetup env (scenarioInit st) sc.setup_steps).st.clock
               - st.clock },
           { (runSetup env (scenarioInit st) sc.setup_steps).st with
             clock := (runSetup env (scenarioInit st) sc.setup_steps).st.clock + 1 }) := by
  simp only [runScenario, hop, hab, if_true]

/-- C2 witness: the amended behaviour at the concrete scenario whose
critical setup step fails. -/
theorem setup_critical_abort_witness :
    runScenario envNone st0 scSetupFail =
      .ok ({ scenario := scSetupFail,
             status := aggStatusCode
               (runSetup envNone (scenarioInit st0) scSetupFail.setup_steps).results,
             step_results :=
               (runSetup envNone (scenarioInit st0) scSetupFail.setup_steps).results,
             start_time := st0.clock,
             end_time :=
               (runSetup envNone (scenarioInit st0) scSetupFail.setup_steps).st.clock,
             duration :=
               (runSetup envNone (scenarioInit st0) scSetupFail.setup_steps).st.clock
                 - st0.clock },
           { (runSetup envNone (scenarioInit st0) scSetupFail.setup_steps).st with
             clock :=
               (runSetup envNone (scenarioInit st0) scSetupFail.setup_steps).st.clock
                 + 1 }) :=
  setup_critical_abort envNone st0 scSetupFail rfl rfl

/-- C3: when the main loop reaches a critical step that does not pass
(after a prefix `pre` that did not stop and a setup phase that did not
abort), the scenario records exactly the setup results, the results of
`pre`, and the failing step's result — the remaining main steps are never
executed — and then all teardown steps still run, each contributing a
result, in order. -/
theorem main_critical_short_circuit (env : Env) (st : RunSt) (sc : TestScenario)
    (pre : List TestStep) (s : TestStep) (post : List TestStep)
    (hsteps : sc.steps = pre ++ s :: post)
    (hop : env.openFail = none)
    (hset : (runSetup env (scenarioInit st) sc.setup_steps).stopped = false)
    (hpre : (runMain env (runSetup env (scenarioInit st) sc.setup_steps).st
        pre).stopped = false)
    (hfail : ((runStep env
        (runMain env (runSetup env (scenarioInit st) sc.setup_steps).st pre).st
        s).1.status != "passed") = true)
    (hcrit : s.critical = true) :
    runScenario env st sc =
      .ok ({ scenario := sc,
             status := aggStatusCode
               ((runSetup env (scenarioInit st) sc.setup_steps).results
                ++ ((runMain env (runSetup env (scenarioInit st) sc.setup_steps).st
                      pre).results
                    ++ [(runStep env
                          (runMain env (runSetup env (scenarioInit st) sc.setup_steps).st
                            pre).st s).1])
                ++ (runTeardown env
                      (runStep env
                        (runMain env (runSetup env (scenarioInit st) sc.setup_steps).st
                          pre).st s).2 sc.teardown_steps).1),
             step_results :=
               (runSetup env (scenarioInit st) sc.setup_steps).results
               ++ ((runMain env (runSetup env (scenarioInit st) sc.setup_steps).st
                     pre).results
                   ++ [(runStep env
                         (runMain env (runSetup env (scenarioInit st) sc.setup_steps).st
                           pre).st s).1])
               ++ (runTeardown env
                     (runStep env
                       (runMain env (runSetup env (scenarioInit st) sc.setup_steps).st
                         pre).st s).2 sc.teardown_steps).1,
             start_time := st.clock,
             end_time := (runTeardown env
               (runStep env
                 (runMain env (runSetup env (scenarioInit st) sc.setup_steps).st
                   pre).st s).2 sc.teardown_steps).2.clock,
             duration := (runTeardown env
               (runStep env
                 (runMain env (runSetup env (scenarioInit st) sc.setup_steps).st
                   pre).st s).2 sc.teardown_steps).2.clock - st.clock },
           { (runTeardown env
               (runStep env
                 (runMain env (runSetup env (scenarioInit st) sc.setup_steps).st
                   pre).st s).2 sc.teardown_steps).2 with
             clock := (runTeardown env
               (runStep env
                 (runMain env (runSetup env (scenarioInit st) sc.setup_steps).st
                   pre).st s).2 sc.teardown_steps).2.clock + 1 }) ∧
    (runTeardown env
      (runStep env
        (runMain env (runSetup env (scenarioInit st) sc.setup_steps).st pre).st
        s).2 sc.teardown_steps).1.length = sc.teardown_steps.length := by
  have hstop : runMain env
      (runMain env (runSetup env (scenarioInit st) sc.setup_steps).st pre).st
      (s :: post) =
      { results := [(runStep env
          (runMain env (runSetup env (scenarioInit st) sc.setup_steps).st pre).st
          s).1],
        st := (runStep env
          (runMain env (runSetup env (scenarioInit st) sc.setup_steps).st pre).st
          s).2,
        stopped := true } := by
    simp [runMain, hfail, hcrit]
  have hmain : runMain env (runSetup env (scenarioInit st) sc.setup_steps).st
      sc.steps =
      { results := (runMain env (runSetup env (scenarioInit st) sc.setup_steps).st
            pre).results
          ++ [(runStep env
                (runMain env (runSetup env (scenarioInit st) sc.setup_steps).st
                  pre).st s).1],
        st := (runStep env
          (runMain env (runSetup env (scenarioInit st) sc.setup_steps).st pre).st
          s).2,
        stopped := true } := by
    rw [hsteps, runMain_append env _ pre (s :: post) hpre, hstop]
  refine ⟨?_, runTeardown_length env _ sc.teardown_steps⟩
  simp only [runScenario, hop, hset, Bool.false_eq_true, if_false, hmain]

/-- C3 witness: the concrete scenario `[critical failing step, step B]`
with one teardown step records exactly the failing step and the teardown
step. -/
theorem main_critical_short_circuit_witness :
    runScenario envNone st0 scMainFail =
      .ok ({ scenario := scMainFail,
             status := aggStatusCode
               ((runSetup envNone (scenarioInit st0) scMainFail.setup_steps).results
                ++ ((runMain envNone
                      (runSetup envNone (scenarioInit st0) scMainFail.setup_steps).st
                      []).results
                    ++ [(runStep envNone
                          (runMain envNone
                            (runSetup envNone (scenarioInit st0)
                              scMainFail.setup_steps).st []).st badStep).1])
                ++ (runTeardown envNone
                      (runStep envNone
                        (runMain envNone
                          (runSetup envNone (scenarioInit st0)
                            scMainFail.setup_steps).st []).st badStep).2
                      scMainFail.teardown_steps).1),
             step_results :=
               (runSetup envNone (scenarioInit st0) scMainFail.setup_steps).results
               ++ ((runMain envNone
                     (runSetup envNone (scenarioInit st0) scMainFail.setup_steps).st
                     []).results
                   ++ [(runStep envNone
                         (runMain envNone
                           (runSetup envNone (scenarioInit st0)
                             scMainFail.setup_steps).st []).st badStep).1])
               ++ (runTeardown envNone
                     (runStep envNone
                       (runMain envNone
                         (runSetup envNone (scenarioInit st0)
                           scMainFail.setup_steps).st []).st badStep).2
                     scMainFail.teardown_steps).1,
             start_time := st0.clock,
             end_time := (runTeardown envNone
               (runStep envNone
                 (runMain envNone
                   (runSetup envNone (scenarioInit st0) scMainFail.setup_steps).st
                   []).st badStep).2 scMainFail.teardown_steps).2.clock,
             duration := (runTeardown envNone
               (runStep envNone
                 (runMain envNone
                   (runSetup envNone (scenarioInit st0) scMainFail.setup_steps).st
                   []).st badStep).2 scMainFail.teardown_steps).2.clock
                 - st0.clock },
           { (runTeardown envNone
               (runStep envNone
                 (runMain envNone
                   (runSetup envNone (scenarioInit st0) scMainFail.setup_steps).st
                   []).st badStep).2 scMainFail.teardown_steps).2 with
             clock := (runTeardown envNone
               (runStep envNone
                 (runMain envNone
                   (runSetup envNone (scenarioInit st0) scMainFail.setup_steps).st
                   []).st badStep).2 scMainFail.teardown_steps).2.clock + 1 }) ∧
    (runTeardown envNone
      (runStep envNone
        (runMain envNone
          (runSetup envNone (scenarioInit st0) scMainFail.setup_steps).st []).st
        badStep).2 scMainFail.teardown_steps).1.length
      = scMainFail.teardown_steps.length :=
  main_critical_short_circuit envNone st0 scMainFail [] badStep [stepB]
    rfl rfl rfl rfl rfl rfl

/-- C4: whenever `run_scenario` completes with a result, the scenario's
status equals the spec's aggregation rule applied to the full ordered
list of recorded step results (setup + main + teardown): `error` if any
result is `error`, else `failed` if any is `failed`, else `passed`. -/
theorem scenario_status_aggregation (env : Env) (st : RunSt) (sc : TestScenario)
    (res : TestResult) (st2 : RunSt)
    (h : runScenario env st sc = .ok (res, st2)) :
    res.status = specStatus res.step_results := by
  cases hop : env.openFail with
  | some m => simp [runScenario, hop] at h
  | none =>
    simp only [runScenario, hop] at h
    injection h with h1
    injection h1 with hres hst
    subst hres
    exact aggStatusCode_eq_specStatus _

/-- C4 witness: the aggregation rule at a concrete completed run. -/
theorem scenario_status_aggregation_witness :
    (resOf (runScenario envNone st0 scOneFail)).status
      = specStatus (resOf (runScenario envNone st0 scOneFail)).step_results :=
  scenario_status_aggregation envNone st0 scOneFail
    (resOf (runScenario envNone st0 scOneFail))
    (stOf (runScenario envNone st0 scOneFail)) rfl

end QA
